import Mathlib

/-!
Shallow embedding of the mutil scrobbler (src/mutil.js): the scrob-detection
state machine of `commands.scrobd`, the range query used by `commands.today`
and `commands.timeChart`, the status-line percent computation, and the bar
height computation of `makeBarChart`.  JavaScript numbers are modelled as
exact rationals, with a small `JsVal` type adding NaN and the infinities for
the places where the source can divide by zero; `~~` (ToInt32) is modelled
on such values including its wrap modulo 2^32.
-/

/-- A parsed cmus status snapshot (`getCmusStatus`, src/mutil.js lines
157-172).  Absent fields default to empty text and zero numbers; `status`
is kept as the raw token (the code compares it with the literal string). -/
structure Snapshot where
  status : String
  artist : String
  albumartist : String
  album : String
  title : String
  duration : Nat
  musicbrainz_trackid : Option String
  deriving DecidableEq, Repr

/-- `status.albumartist || status.artist` (src/mutil.js line 199 and the
INSERT at line 228): the empty string is falsy in JavaScript, so an empty
`albumartist` falls back to `artist`. -/
def artistKey (s : Snapshot) : String :=
  if s.albumartist = "" then s.artist else s.albumartist

/-- The separator used by `[..].join('::')` (src/mutil.js line 202). -/
def idSep : String := "::"

/-- `trackId = [albumartist || artist, album, title].join('::')`
(src/mutil.js lines 198-202). -/
def trackId (s : Snapshot) : String :=
  String.intercalate idSep [artistKey s, s.album, s.title]

/-- `timeToScrob = Math.min(240000, status.duration * 500)`
(src/mutil.js line 204), in milliseconds. -/
def timeToScrob (duration : Nat) : Nat :=
  min 240000 (duration * 500)

/-- The emission condition of src/mutil.js lines 215-217:
`playTime > 240000 || playTime > (status.duration * 500)`. -/
def emitCond (playTime : Int) (duration : Nat) : Prop :=
  playTime > 240000 ∨ playTime > (duration : Int) * 500

instance (playTime : Int) (duration : Nat) : Decidable (emitCond playTime duration) := by
  unfold emitCond
  infer_instance

/-- A row of the `scrobs` table (src/mutil.js lines 24-32); the surrogate
`id` column is assigned by the store and omitted here. -/
structure ScrobRecord where
  albumartist : String
  album : String
  title : String
  musicbrainz_trackid : Option String
  duration : Nat
  «at» : Int
  deriving DecidableEq, Repr

/-- The row built by the INSERT of src/mutil.js lines 219-235;
`at = ~~(Date.now() / 1000)` (`now` is a non-negative millisecond count in
the source, so truncating and flooring division agree). -/
def mkScrobRecord (snap : Snapshot) (now : Int) : ScrobRecord :=
  { albumartist := artistKey snap
    album := snap.album
    title := snap.title
    musicbrainz_trackid := snap.musicbrainz_trackid
    duration := snap.duration
    «at» := now / 1000 }

/-- The mutable loop state of `commands.scrobd` (src/mutil.js lines
181-184): `lastTrackId` (null before the first tick), `lastPollTime`,
`playTime` (milliseconds), and the `scrobd` flag. -/
structure ScrobState where
  lastTrackId : Option String
  lastPollTime : Int
  playTime : Int
  scrobd : Bool
  deriving DecidableEq, Repr

/-- One iteration of the polling loop of `commands.scrobd` (src/mutil.js
lines 196-249), with the three `Date.now()` reads of one tick collapsed to
the single instant `now`: if the track id is unchanged and the status is
`playing`, `playTime += now - lastPollTime` (no clamping in the source) and
a record is emitted when `!scrobd && (playTime > 240000 || playTime >
duration * 500)`, setting `scrobd`; else if the track id changed, `playTime`
and `scrobd` reset; else nothing but the unconditional trailing updates
`lastTrackId = trackId; lastPollTime = now` happen. -/
def scrobTick (s : ScrobState) (snap : Snapshot) (now : Int) :
    ScrobState × Option ScrobRecord :=
  if s.lastTrackId = some (trackId snap) ∧ snap.status = "playing" then
    if s.scrobd = false ∧ emitCond (s.playTime + (now - s.lastPollTime)) snap.duration then
      (⟨some (trackId snap), now, s.playTime + (now - s.lastPollTime), true⟩,
        some (mkScrobRecord snap now))
    else
      (⟨some (trackId snap), now, s.playTime + (now - s.lastPollTime), s.scrobd⟩, none)
  else if s.lastTrackId ≠ some (trackId snap) then
    (⟨some (trackId snap), now, 0, false⟩, none)
  else
    (⟨some (trackId snap), now, s.playTime, s.scrobd⟩, none)

/-- Run the loop over a list of ticks, each a snapshot together with the
`Date.now()` instant of that iteration; collects the emitted records in
order. -/
def runTicks : ScrobState → List (Snapshot × Int) → ScrobState × List ScrobRecord
  | s, [] => (s, [])
  | s, t :: ts =>
    let r := scrobTick s t.1 t.2
    let rest := runTicks r.1 ts
    (rest.1, r.2.toList ++ rest.2)

/-- Strictly increasing poll instants of a tick list. -/
def timesIncreasing : List (Snapshot × Int) → Bool
  | [] => true
  | [_] => true
  | a :: b :: ts => decide (a.2 < b.2) && timesIncreasing (b :: ts)

/-- The range query `SELECT * FROM scrobs WHERE at > since` used by both
`commands.today` (src/mutil.js line 256) and `commands.timeChart` (line
289): note the strict comparison in the source. -/
def queryRange (records : List ScrobRecord) (since : Int) : List ScrobRecord :=
  records.filter (fun r => decide (since < r.«at»))

/-- Appending a row to the append-only `scrobs` table. -/
def insertRecord (records : List ScrobRecord) (r : ScrobRecord) : List ScrobRecord :=
  records ++ [r]

/-- A JavaScript number as it arises in this program: an exact rational, or
one of the special values NaN / Infinity / -Infinity produced by dividing
by zero.  (All concrete magnitudes here are far too small for binary
floating point rounding to move any computed value across an integer
boundary, so exact rationals are a faithful model.) -/
inductive JsVal where
  | num (q : ℚ)
  | posInf
  | negInf
  | nan
  deriving DecidableEq, Repr

/-- JavaScript division: `a / 0` is NaN when `a = 0` and a signed infinity
otherwise; the non-numeric operand cases are unreachable in this program
and collapse to NaN. -/
def jsDiv : JsVal → JsVal → JsVal
  | JsVal.num a, JsVal.num b =>
    if b = 0 then
      if a = 0 then JsVal.nan
      else if 0 < a then JsVal.posInf
      else JsVal.negInf
    else JsVal.num (a / b)
  | _, _ => JsVal.nan

/-- JavaScript multiplication on `JsVal`: NaN is absorbing, infinity times
zero is NaN, infinity times a nonzero number follows the signs. -/
def jsMul : JsVal → JsVal → JsVal
  | JsVal.nan, _ => JsVal.nan
  | _, JsVal.nan => JsVal.nan
  | JsVal.num a, JsVal.num b => JsVal.num (a * b)
  | JsVal.posInf, JsVal.num b =>
    if b = 0 then JsVal.nan else if 0 < b then JsVal.posInf else JsVal.negInf
  | JsVal.num a, JsVal.posInf =>
    if a = 0 then JsVal.nan else if 0 < a then JsVal.posInf else JsVal.negInf
  | JsVal.negInf, JsVal.num b =>
    if b = 0 then JsVal.nan else if 0 < b then JsVal.negInf else JsVal.posInf
  | JsVal.num a, JsVal.negInf =>
    if a = 0 then JsVal.nan else if 0 < a then JsVal.negInf else JsVal.posInf
  | JsVal.posInf, JsVal.posInf => JsVal.posInf
  | JsVal.negInf, JsVal.negInf => JsVal.posInf
  | JsVal.posInf, JsVal.negInf => JsVal.negInf
  | JsVal.negInf, JsVal.posInf => JsVal.negInf

/-- JavaScript subtraction on `JsVal`, for `y = pH - height`. -/
def jsSub : JsVal → JsVal → JsVal
  | JsVal.nan, _ => JsVal.nan
  | _, JsVal.nan => JsVal.nan
  | JsVal.num a, JsVal.num b => JsVal.num (a - b)
  | JsVal.num _, JsVal.posInf => JsVal.negInf
  | JsVal.num _, JsVal.negInf => JsVal.posInf
  | JsVal.posInf, JsVal.num _ => JsVal.posInf
  | JsVal.negInf, JsVal.num _ => JsVal.negInf
  | JsVal.posInf, JsVal.negInf => JsVal.posInf
  | JsVal.negInf, JsVal.posInf => JsVal.negInf
  | JsVal.posInf, JsVal.posInf => JsVal.nan
  | JsVal.negInf, JsVal.negInf => JsVal.nan

/-- `Math.max(...values)`: -Infinity on an empty argument list, the maximum
otherwise (no NaN arguments arise in this program). -/
def jsMax (l : List ℚ) : JsVal :=
  match l with
  | [] => JsVal.negInf
  | x :: xs => JsVal.num (xs.foldl max x)

/-- Truncation toward zero of an exact rational, as JavaScript `~~` does
before its 32-bit wrap. -/
def ratTrunc (q : ℚ) : Int :=
  if 0 ≤ q then Int.floor q else Int.ceil q

/-- JavaScript `~~x` (ToInt32): NaN and the infinities map to 0; a number
is truncated toward zero and wrapped into the signed 32-bit range. -/
def jsToInt32 : JsVal → Int
  | JsVal.num q => (ratTrunc q + 2 ^ 31) % 2 ^ 32 - 2 ^ 31
  | _ => 0

/-- The percent shown in the status line while not yet scrobbled
(src/mutil.js line 206): `~~((playTime * 100) / timeToScrob)`.  When
`timeToScrob` is 0 the JavaScript division yields NaN or a signed
infinity and `~~` maps those to 0. -/
def statusPercent (playTime : Int) (ttScrob : Nat) : Int :=
  jsToInt32 (jsDiv (JsVal.num ((playTime * 100 : Int) : ℚ)) (JsVal.num (ttScrob : ℚ)))

/-- The `opts` argument of `makeBarChart`; `pad` and `barPad` are read with
`||` defaults (so an explicit 0 behaves like absent). -/
structure ChartOpts where
  width : ℚ
  height : ℚ
  pad : Option ℚ
  barPad : Option ℚ

/-- One `rect` bar of the chart (tag, fill omitted): its geometry fields. -/
structure BarRect where
  width : ℚ
  height : JsVal
  x : ℚ
  y : JsVal

/-- The bars of `makeBarChart` (src/mutil.js lines 80-100): `pad = opts.pad
|| opts.height * 0.05`, `pW = width - pad*2`, `pH = height - 25 - pad*2`,
`bP = opts.barPad || 0`, `bW = pW/data.length - bP`, `yMax = Math.max(...
values)`, and each bar has `height = (value / yMax) * pH`, `x = idx*(bW+bP)`,
`y = pH - height`.  The labels and the surrounding `g` elements carry no
further numeric computation and are omitted. -/
def makeBarChartBars (data : List (String × ℚ)) (opts : ChartOpts) : List BarRect :=
  let pad := match opts.pad with
    | some p => if p = 0 then opts.height * (5 / 100) else p
    | none => opts.height * (5 / 100)
  let pW := opts.width - pad * 2
  let pH := opts.height - 25 - pad * 2
  let bP := match opts.barPad with
    | some p => p
    | none => 0
  let bW := pW / (data.length : ℚ) - bP
  let yMax := jsMax (data.map (fun d => d.2))
  (data.enum).map (fun p =>
    let height := jsMul (jsDiv (JsVal.num p.2.2) yMax) (JsVal.num pH)
    { width := bW
      height := height
      x := (p.1 : ℚ) * (bW + bP)
      y := jsSub (JsVal.num pH) height })

/-- A snapshot of a playing track of duration 200 seconds. -/
def snapA : Snapshot :=
  ⟨"playing", "art", "aa", "alb", "tit", 200, none⟩

/-- A paused snapshot of the same track as `snapA`. -/
def snapApaused : Snapshot :=
  ⟨"paused", "art", "aa", "alb", "tit", 200, none⟩

/-- A playing snapshot whose album artist itself contains the separator. -/
def snapX : Snapshot :=
  ⟨"playing", "", "a::b", "c", "d", 100, none⟩

/-- A playing snapshot with different fields than `snapX` but, as the
separator occurs inside a field, the same joined track id. -/
def snapY : Snapshot :=
  ⟨"playing", "", "a", "b::c", "d", 100, none⟩

/-- A playing snapshot of a track of unknown (zero) duration. -/
def snapZero : Snapshot :=
  ⟨"playing", "art", "aa", "alb0", "tit0", 0, none⟩

/-- A concrete persisted record with `at = 5`. -/
def rec0 : ScrobRecord :=
  ⟨"aa", "alb", "tit", none, 200, 5⟩

/-- Loop state at the start of a continuous run of `snapA`: the previous
tick already set `lastTrackId`, nothing accumulated, not scrobbled. -/
def s0 : ScrobState :=
  ⟨some (trackId snapA), 0, 0, false⟩

/-- A continuous playing run of `snapA` whose accumulation reaches exactly
100000 ms after two ticks and 100001 ms at the third. -/
def runA : List (Snapshot × Int) :=
  [(snapA, 50000), (snapA, 100000), (snapA, 100001), (snapA, 102001)]

/-- The seven-day all-zero data set fed to `makeBarChart` by
`commands.timeChart` in a week with no scrobs. -/
def wkZero : List (String × ℚ) :=
  [("Mon", 0), ("Tue", 0), ("Wed", 0), ("Thu", 0), ("Fri", 0), ("Sat", 0), ("Sun", 0)]

/-- The chart options passed by `commands.timeChart` (src/mutil.js lines
305-318): width 600, height 300, barPad 5, no explicit pad. -/
def chartOpts : ChartOpts :=
  ⟨600, 300, none, some 5⟩

/-- A short continuous playing run of `snapA` from a fresh loop state. -/
def run2 : List (Snapshot × Int) :=
  [(snapA, 1000), (snapA, 3000)]

/-- After any tick the session's `lastTrackId` is the tick's track id
(the unconditional assignment of src/mutil.js line 246). -/
theorem scrobTick_fst_lastTrackId (s : ScrobState) (snap : Snapshot) (now : Int) :
    ((scrobTick s snap now).1).lastTrackId = some (trackId snap) := by
  unfold scrobTick
  split_ifs <;> rfl

/-- A tick of an already-scrobbled session emits nothing, whatever the
snapshot: the emission guard requires `!scrobd`. -/
theorem scrobTick_snd_none_of_scrobd (s : ScrobState) (snap : Snapshot) (now : Int)
    (h : s.scrobd = true) : (scrobTick s snap now).2 = none := by
  unfold scrobTick
  split_ifs with h1 h2 h3
  · rw [h] at h2
    exact absurd h2.1 (by simp)
  · rfl
  · rfl
  · rfl

/-- While the track id stays the same, the `scrobd` flag is never cleared. -/
theorem scrobTick_fst_scrobd_of_scrobd (s : ScrobState) (snap : Snapshot) (now : Int)
    (h : s.scrobd = true) (hid : s.lastTrackId = some (trackId snap)) :
    ((scrobTick s snap now).1).scrobd = true := by
  unfold scrobTick
  split_ifs with h1 h2 h3
  · rfl
  · exact h
  · exact absurd hid h3
  · exact h

/-- A tick that emits a record sets the `scrobd` flag. -/
theorem scrobTick_fst_scrobd_of_emit (s : ScrobState) (snap : Snapshot) (now : Int)
    (h : (scrobTick s snap now).2 ≠ none) : ((scrobTick s snap now).1).scrobd = true := by
  unfold scrobTick at h ⊢
  split_ifs at h ⊢ <;> simp_all

/-- Once `scrobd` is set, a run that keeps the same track id emits no
further record. -/
theorem runTicks_snd_nil_of_scrobd (tid : String) (ticks : List (Snapshot × Int)) :
    ∀ s : ScrobState, (∀ t ∈ ticks, trackId t.1 = tid) → s.scrobd = true →
      s.lastTrackId = some tid → (runTicks s ticks).2 = [] := by
  induction ticks with
  | nil =>
    intro s _ _ _
    rfl
  | cons t ts ih =>
    intro s hid hs hl
    have htid : trackId t.1 = tid := hid t (List.mem_cons_self t ts)
    have h1 : (scrobTick s t.1 t.2).2 = none := scrobTick_snd_none_of_scrobd _ _ _ hs
    have h2 : ((scrobTick s t.1 t.2).1).scrobd = true :=
      scrobTick_fst_scrobd_of_scrobd _ _ _ hs (by rw [hl, htid])
    have h3 : ((scrobTick s t.1 t.2).1).lastTrackId = some tid := by
      rw [scrobTick_fst_lastTrackId, htid]
    have hrest := ih (scrobTick s t.1 t.2).1
      (fun x hx => hid x (List.mem_cons_of_mem t hx)) h2 h3
    simp [runTicks, h1, hrest]

/-- C1: over any sequence of poll ticks that all carry the same track
identity with status `playing`, at monotonically increasing poll times, the
scrob loop emits at most one record: the `scrobd` flag blocks any second
emission until the identity changes. -/
theorem scrobd_at_most_one (ticks : List (Snapshot × Int)) (tid : String) (s : ScrobState)
    (hid : ∀ t ∈ ticks, trackId t.1 = tid)
    (hpl : ∀ t ∈ ticks, t.1.status = "playing")
    (hmono : timesIncreasing ticks = true) :
    (runTicks s ticks).2.length ≤ 1 := by
  induction ticks generalizing s with
  | nil => simp [runTicks]
  | cons t ts ih =>
    have htl : ∀ x ∈ ts, trackId x.1 = tid :=
      fun x hx => hid x (List.mem_cons_of_mem t hx)
    have hpltl : ∀ x ∈ ts, x.1.status = "playing" :=
      fun x hx => hpl x (List.mem_cons_of_mem t hx)
    have hmonotl : timesIncreasing ts = true := by
      cases ts with
      | nil => rfl
      | cons b bs => exact (Bool.and_eq_true _ _ |>.mp hmono).2
    cases hr : (scrobTick s t.1 t.2).2 with
    | none =>
      have hrec := ih (scrobTick s t.1 t.2).1 htl hpltl hmonotl
      simp [runTicks, hr]
      exact hrec
    | some r =>
      have hscr : ((scrobTick s t.1 t.2).1).scrobd = true :=
        scrobTick_fst_scrobd_of_emit _ _ _ (by rw [hr]; simp)
      have hlt : ((scrobTick s t.1 t.2).1).lastTrackId = some tid := by
        rw [scrobTick_fst_lastTrackId, hid t (List.mem_cons_self t ts)]
      have hnil := runTicks_snd_nil_of_scrobd tid ts (scrobTick s t.1 t.2).1 htl hscr hlt
      simp [runTicks, hr, hnil]

theorem scrobd_at_most_one_witness :
    (runTicks ⟨none, 0, 0, false⟩ run2).2.length ≤ 1 :=
  scrobd_at_most_one run2 (trackId snapA) ⟨none, 0, 0, false⟩
    (by decide) (by decide) (by decide)

/-- C2 counterexample: the source queries with `at > since` (strict), so a
record whose `at` equals `since` is excluded even though `since` is less
than or equal to its `at` field. -/
theorem queryRange_inclusive_cex :
    (5 : Int) ≤ rec0.«at» ∧ rec0 ∉ queryRange (insertRecord [] rec0) 5 := by decide

/-- C2 (amended): the range query has a strict lower bound: an inserted
record is returned whenever `since` is strictly below its `at` field and is
excluded whenever `since` is greater than or equal to it. -/
theorem queryRange_strict (records : List ScrobRecord) (r : ScrobRecord) (since : Int) :
    (since < r.«at» → r ∈ queryRange (insertRecord records r) since) ∧
    (r.«at» ≤ since → r ∉ queryRange (insertRecord records r) since) := by
  constructor
  · intro h
    refine List.mem_filter.mpr ⟨?_, by simpa using h⟩
    simp [insertRecord]
  · intro h hmem
    have hbad := (List.mem_filter.mp hmem).2
    simp at hbad
    omega

theorem queryRange_strict_witness :
    rec0 ∈ queryRange (insertRecord [] rec0) 4 ∧
    rec0 ∉ queryRange (insertRecord [] rec0) 5 :=
  ⟨(queryRange_strict [] rec0 4).1 (by decide), (queryRange_strict [] rec0 5).2 (by decide)⟩

/-- C3: over a 7-day window in which every day's play count is 0,
`makeBarChart` computes `yMax = 0` and every bar's height as
`(0 / 0) * pH = NaN` — not the defined height 0 the specification
requires. -/
theorem weekly_allzero_heights_nan :
    ((makeBarChartBars wkZero chartOpts).map (fun b => b.height)) =
      List.replicate 7 JsVal.nan ∧
    JsVal.nan ≠ JsVal.num 0 := by decide

/-- Unfolding equation of `jsDiv` on two numbers. -/
theorem jsDiv_num (a b : ℚ) :
    jsDiv (JsVal.num a) (JsVal.num b) =
      if b = 0 then
        (if a = 0 then JsVal.nan else if 0 < a then JsVal.posInf else JsVal.negInf)
      else JsVal.num (a / b) := rfl

/-- Unfolding equation of `jsToInt32` on a number. -/
theorem jsToInt32_num (q : ℚ) :
    jsToInt32 (JsVal.num q) = (ratTrunc q + 2 ^ 31) % 2 ^ 32 - 2 ^ 31 := rfl

/-- C4 counterexample: at a zero threshold with positive accumulation the
status line shows 0, not 100: the JavaScript division yields Infinity and
`~~` maps it to 0. -/
theorem statusPercent_zero_threshold_cex :
    statusPercent 1 0 = 0 ∧ statusPercent 1 0 ≠ 100 := by
  have h : statusPercent 1 0 = 0 := by simp [statusPercent, jsDiv, jsToInt32]
  exact ⟨h, by rw [h]; norm_num⟩

/-- C4 (amended): while not yet scrobbled the status-line percent equals
`floor(accumulatedPlayMs * 100 / scrobThresholdMs)` when the threshold is
positive (below the 2^31 ToInt32 wrap), and is 0 — not 100 — whenever the
threshold is 0, regardless of the accumulation: `~~` maps the NaN or
Infinity produced by the zero division to 0. -/
theorem statusPercent_eq (p t : Nat) (hp : p * 100 < 2 ^ 31) :
    statusPercent (p : Int) t = if t = 0 then 0 else ((p * 100 / t : Nat) : Int) := by
  unfold statusPercent
  rw [jsDiv_num]
  rcases Nat.eq_zero_or_pos t with ht | ht
  · subst ht
    rw [if_pos (by norm_num), if_pos rfl]
    rcases Nat.eq_zero_or_pos p with hp0 | hp0
    · subst hp0
      rw [if_pos (by norm_num)]
      rfl
    · have ha : (0 : ℚ) < (((p : Int) * 100 : Int) : ℚ) := by
        have : (0 : ℕ) < p * 100 := Nat.mul_pos hp0 (by norm_num)
        exact_mod_cast this
      rw [if_neg (ne_of_gt ha), if_pos ha]
      rfl
  · have htq : ((t : ℚ)) ≠ 0 := Nat.cast_ne_zero.mpr (by omega)
    rw [if_neg htq, if_neg (by omega : ¬ t = 0), jsToInt32_num]
    have hq0 : (0 : ℚ) ≤ (((p : Int) * 100 : Int) : ℚ) / ((t : ℚ)) := by positivity
    have hfl : ratTrunc ((((p : Int) * 100 : Int) : ℚ) / ((t : ℚ))) = ((p * 100 / t : Nat) : Int) := by
      unfold ratTrunc
      rw [if_pos hq0, Rat.floor_intCast_div_natCast ((p : Int) * 100) t]
      rw [show ((p : Int) * 100) = ((p * 100 : Nat) : Int) by push_cast; ring]
      exact (Int.ofNat_ediv (p * 100) t).symm
    rw [hfl]
    have h1 : ((p * 100 / t : Nat) : Int) ≤ ((p * 100 : Nat) : Int) := by
      exact_mod_cast Nat.div_le_self (p * 100) t
    have h2 : ((p * 100 : Nat) : Int) < 2 ^ 31 := by exact_mod_cast hp
    have h0 : 0 ≤ ((p * 100 / t : Nat) : Int) := Int.ofNat_nonneg _
    omega

theorem statusPercent_eq_witness :
    50000 * 100 < 2 ^ 31 ∧
    statusPercent ((50000 : Nat) : Int) 100000 =
      if (100000 : Nat) = 0 then 0 else ((50000 * 100 / 100000 : Nat) : Int) :=
  ⟨by norm_num, statusPercent_eq 50000 100000 (by norm_num)⟩

/-- C5 counterexample: the source adds `now - lastPollTime` without any
clamping, so with a poll instant earlier than the stored one the
accumulated play time becomes negative. -/
theorem playTime_negative_cex :
    ((scrobTick ⟨some (trackId snapA), 100, 0, false⟩ snapA 0).1).playTime = -100 ∧
    ((scrobTick ⟨some (trackId snapA), 100, 0, false⟩ snapA 0).1).playTime < 0 := by decide

/-- C5 (amended): on a playing tick with unchanged identity the elapsed
time added is exactly `now - lastPollTimestamp`, unclamped; the accumulated
play time stays non-negative provided the poll instants do not go
backwards. -/
theorem playTime_no_clamp (s : ScrobState) (snap : Snapshot) (now : Int)
    (hid : s.lastTrackId = some (trackId snap)) (hst : snap.status = "playing")
    (hpt : 0 ≤ s.playTime) (hpoll : s.lastPollTime ≤ now) :
    ((scrobTick s snap now).1).playTime = s.playTime + (now - s.lastPollTime) ∧
    0 ≤ ((scrobTick s snap now).1).playTime := by
  unfold scrobTick
  rw [if_pos ⟨hid, hst⟩]
  constructor
  · split_ifs <;> rfl
  · split_ifs <;> dsimp only <;> omega

theorem playTime_no_clamp_witness :
    ((scrobTick ⟨some (trackId snapA), 0, 3000, false⟩ snapA 5000).1).playTime =
      3000 + (5000 - 0) ∧
    0 ≤ ((scrobTick ⟨some (trackId snapA), 0, 3000, false⟩ snapA 5000).1).playTime :=
  playTime_no_clamp _ _ _ (by decide) (by decide) (by decide) (by decide)

/-- C6: the source's emission condition `playTime > 240000 || playTime >
duration * 500` is equivalent to exceeding `timeToScrob = min(240000,
duration * 500)`; and a continuous playing run of a 200-second track
(threshold 100000 ms) emits nothing while the accumulation is at or below
100000 ms, and exactly one record over the whole run, at the first tick
where the accumulation exceeds the threshold (here 100001 ms). -/
theorem emitCond_iff_timeToScrob :
    (∀ (p : Int) (d : Nat), emitCond p d ↔ p > ((timeToScrob d : Nat) : Int)) ∧
    timeToScrob snapA.duration = 100000 ∧
    (runTicks s0 (runA.take 2)).2 = [] ∧
    (runTicks s0 (runA.take 3)).2.length = 1 ∧
    (runTicks s0 runA).2.length = 1 := by
  refine ⟨fun p d => ?_, by decide, by decide, by decide, by decide⟩
  unfold emitCond timeToScrob
  constructor
  · intro h
    rcases h with h | h
    · push_cast
      omega
    · push_cast at h ⊢
      omega
  · intro h
    push_cast at h
    omega

/-- C7: a zero `durationSeconds` makes the scrob threshold 0, and on a
playing tick with unchanged identity, positive accumulation and the play
not yet scrobbled, the record is emitted on that same tick. -/
theorem zero_duration_instant_scrob (s : ScrobState) (snap : Snapshot) (now : Int)
    (hdur : snap.duration = 0)
    (hid : s.lastTrackId = some (trackId snap)) (hst : snap.status = "playing")
    (hnot : s.scrobd = false)
    (hpos : 0 < s.playTime + (now - s.lastPollTime)) :
    timeToScrob snap.duration = 0 ∧
    (scrobTick s snap now).2 = some (mkScrobRecord snap now) := by
  constructor
  · rw [hdur]
    rfl
  · unfold scrobTick
    rw [if_pos ⟨hid, hst⟩,
      if_pos ⟨hnot, Or.inr (by rw [hdur]; push_cast; omega)⟩]

theorem zero_duration_instant_scrob_witness :
    timeToScrob snapZero.duration = 0 ∧
    (scrobTick ⟨some (trackId snapZero), 0, 0, false⟩ snapZero 2000).2 =
      some (mkScrobRecord snapZero 2000) :=
  zero_duration_instant_scrob _ _ _ (by decide) (by decide) (by decide)
    (by decide) (by decide)

/-- C8: a tick whose snapshot identity differs from the session's current
identity resets the session — accumulation 0, `scrobd` cleared, the new
identity installed, the poll time updated — and emits nothing, so an
abandoned play never produces a record and a later run of the same identity
accumulates from 0. -/
theorem scrobTick_track_change (s : ScrobState) (snap : Snapshot) (now : Int)
    (h : s.lastTrackId ≠ some (trackId snap)) :
    scrobTick s snap now = (⟨some (trackId snap), now, 0, false⟩, none) := by
  unfold scrobTick
  rw [if_neg (fun hc => h hc.1), if_pos h]

theorem scrobTick_track_change_witness :
    scrobTick ⟨none, 0, 0, false⟩ snapA 1000 =
      (⟨some (trackId snapA), 1000, 0, false⟩, none) :=
  scrobTick_track_change _ _ _ (by decide)

/-- C9: a tick with unchanged identity whose status is not `playing`
freezes the session: accumulation, `scrobd` flag and identity are all
unchanged, nothing is emitted, and only the poll timestamp advances. -/
theorem scrobTick_pause_freeze (s : ScrobState) (snap : Snapshot) (now : Int)
    (hid : s.lastTrackId = some (trackId snap)) (hst : snap.status ≠ "playing") :
    scrobTick s snap now = ({ s with lastPollTime := now }, none) := by
  unfold scrobTick
  rw [if_neg (fun hc => hst hc.2), if_neg (fun hn => hn hid)]
  cases s
  simp_all

theorem scrobTick_pause_freeze_witness :
    scrobTick ⟨some (trackId snapApaused), 0, 4000, false⟩ snapApaused 2000 =
      ({ (⟨some (trackId snapApaused), 0, 4000, false⟩ : ScrobState) with
          lastPollTime := 2000 }, none) :=
  scrobTick_pause_freeze _ _ _ (by decide) (by decide)

/-- C10: the `'::'`-joined track identity is not injective: `snapX` and
`snapY` have different (albumArtist-or-artist, album, title) tuples but the
same joined key, and after a tick of `snapX` the state machine treats a
`snapY` tick as the same continuous play, accumulating rather than
resetting. -/
theorem trackId_not_injective :
    trackId snapX = trackId snapY ∧
    (artistKey snapX, snapX.album, snapX.title) ≠
      (artistKey snapY, snapY.album, snapY.title) ∧
    ((scrobTick ⟨some (trackId snapX), 0, 5000, false⟩ snapY 2000).1).playTime = 7000 := by
  decide
